import Mathlib

/-!
Verification development for the playwright-captcha-solver repository.

The definitions below are a shallow embedding of the CAPTCHA solve loop and
its helpers, translated from:
  - src/solver/solve-captcha.ts       (solveCaptchas, handleCaptchaAction, handleClick)
  - src/llm-connectors/llm-connector.ts (action types, zod response schema)
  - src/find-captcha/get-active-captchas.ts (getNewCaptchaFrames,
      getPageCoordinatesFromIframePercentage)
  - src/dom/highlighter.ts            (removeHighlightsOnFrame / labelCaptchaActionOnFrame,
      modelled only through their null-frame behaviour)

Numbers that the TypeScript code handles as JS doubles are modelled as
rationals; a JS NaN (from parseInt on a non-numeric string) is modelled as
`none` in `Option Rat` and propagates through arithmetic, as NaN does.
A thrown TypeError is modelled as `Except.error`.
-/

/-- The `CaptchaActionState` string enum of llm-connector.ts. -/
inductive ActionState where
  | creatingAction
  | adjustAction
  | actionConfirmed
deriving DecidableEq, Repr

/-- A percentage location `{x: string, y: string}` (CaptchaActionLocation). -/
structure Loc where
  x : String
  y : String
deriving DecidableEq, Repr

/-- One entry of a multiClick action's `locations` array: `{index, x, y}`. -/
structure IdxLoc where
  index : Int
  x : String
  y : String
deriving DecidableEq, Repr

/-- The `CaptchaAction` tagged union.  The variants `click`, `drag`, `type`
and `captcha_solved` are declared in llm-connector.ts; the `multiClick` tag is
additionally handled by the executor switch in solve-captcha.ts. -/
inductive CaptchaAction where
  | click (location : Loc) (actionState : ActionState)
  | drag (startLocation endLocation : Loc) (actionState : ActionState)
  | typeText (location : Loc) (value : String) (actionState : ActionState)
  | multiClick (locations : List IdxLoc) (actionState : ActionState)
  | solved
deriving DecidableEq, Repr

/-- Whether `action.action === "captcha_solved"`. -/
def isSolvedAction : CaptchaAction → Bool
  | .solved => true
  | _ => false

/-- The `actionState` property; `captcha_solved` carries none (undefined). -/
def stateOf : CaptchaAction → Option ActionState
  | .click _ st => some st
  | .drag _ _ st => some st
  | .typeText _ _ st => some st
  | .multiClick _ st => some st
  | .solved => none

/-- The object spread `{...prev, actionState: st}` used at the confirm step. -/
def setActionState : CaptchaAction → ActionState → CaptchaAction
  | .click l _, st => .click l st
  | .drag a b _, st => .drag a b st
  | .typeText l v _, st => .typeText l v st
  | .multiClick ls _, st => .multiClick ls st
  | .solved, _ => .solved

/-- The state-free part of an action: every field except `actionState`. -/
inductive ActionPayload where
  | click (location : Loc)
  | drag (startLocation endLocation : Loc)
  | typeText (location : Loc) (value : String)
  | multiClick (locations : List IdxLoc)
  | solved
deriving DecidableEq, Repr

/-- Projects an action onto its state-free fields. -/
def payload : CaptchaAction → ActionPayload
  | .click l _ => .click l
  | .drag a b _ => .drag a b
  | .typeText l v _ => .typeText l v
  | .multiClick ls _ => .multiClick ls
  | .solved => .solved

/-- Value of a non-empty run of leading decimal digits, `none` otherwise. -/
def digitsToNat? (cs : List Char) : Option Nat :=
  let ds := cs.takeWhile Char.isDigit
  if ds.isEmpty then none
  else some (ds.foldl (fun acc c => acc * 10 + (c.toNat - 48)) 0)

/-- JS `parseInt` on the percentage strings: skip leading whitespace, read an
optional sign and then leading decimal digits; `none` models NaN. -/
def parseIntJS (s : String) : Option Int :=
  let cs := s.toList.dropWhile (fun c => c = ' ' ∨ c = '\t' ∨ c = '\n' ∨ c = '\r')
  match cs with
  | '-' :: rest => (digitsToNat? rest).map (fun n => -(n : Int))
  | '+' :: rest => (digitsToNat? rest).map (fun n => (n : Int))
  | _ => (digitsToNat? cs).map (fun n => (n : Int))

/-- A DOM bounding box `{x, y, width, height}`. -/
structure Box where
  x : Rat
  y : Rat
  width : Rat
  height : Rat
deriving DecidableEq, Repr

/-- A page coordinate `{x, y}`. -/
structure Point where
  x : Rat
  y : Rat
deriving DecidableEq, Repr

/-- getPageCoordinatesFromIframePercentage of get-active-captchas.ts: linear
interpolation inside the box; returns null exactly when the box is absent. -/
def getPageCoordinatesFromIframePercentage (box : Option Box)
    (xPercentage yPercentage : Rat) : Option Point :=
  match box with
  | none => none
  | some b =>
      let xDecimal := xPercentage / 100
      let yDecimal := yPercentage / 100
      some ⟨b.x + b.width * xDecimal, b.y + b.height * yDecimal⟩

/-- The page coordinate the executor computes for one percentage-string
location: `parseIntJS` can produce NaN (`none`), which propagates through the
interpolation arithmetic. -/
def pagePt (b : Box) (xs ys : String) : Option Rat × Option Rat :=
  ((parseIntJS xs).map (fun n => b.x + b.width * ((n : Rat) / 100)),
   (parseIntJS ys).map (fun n => b.y + b.height * ((n : Rat) / 100)))

/-- Outcome of `getElementAtPoint` plus the subsequent `elem.click()` try:
the frame evaluation can throw (in particular when the frame is null), find no
element, or find one whose direct click succeeds or throws. -/
inductive ElemLookup where
  | threw
  | notFound
  | found (clickThrows : Bool)
deriving DecidableEq, Repr

/-- A thrown JS error (here always a TypeError on a null/undefined object). -/
inductive JsError where
  | typeError
deriving DecidableEq, Repr

/-- Observable pointer/keyboard device operations issued by the executor. -/
inductive InputEvent where
  | moveTo (x y : Option Rat)
  | mouseClick (x y : Option Rat)
  | elementClick (x y : Option Rat)
  | mouseDown
  | mouseUp
  | keyType (value : String)
deriving DecidableEq, Repr

/-- The element lookup actually performed: `getElementAtPoint(frame, ...)`
throws a TypeError outright when the frame reference is null. -/
def lookupAt (elem : Nat → ElemLookup) (frameNull : Bool) (i : Nat) : ElemLookup :=
  if frameNull then .threw else elem i

/-- handleClick of solve-captcha.ts: maps the percentage strings through
parseInt and the coordinate mapper, moves the cursor, then clicks the element
under the point or falls back to a coordinate click; absent box means the
mapper returned null and the step is aborted with no input. -/
def handleClickModel (lk : ElemLookup) (box : Option Box) (xs ys : String) :
    Except JsError (List InputEvent) :=
  match box with
  | none => .ok []
  | some b =>
      let c := pagePt b xs ys
      match lk with
      | .threw => .error .typeError
      | .notFound => .ok [.moveTo c.1 c.2, .mouseClick c.1 c.2]
      | .found clickThrows =>
          .ok [.moveTo c.1 c.2,
               if clickThrows then .mouseClick c.1 c.2 else .elementClick c.1 c.2]

/-- The `multiClick` case: one handleClick per location, in array order. -/
def handleMultiClicks (elem : Nat → ElemLookup) (frameNull : Bool)
    (box : Option Box) : List IdxLoc → Nat → Except JsError (List InputEvent)
  | [], _ => .ok []
  | l :: rest, i =>
      match handleClickModel (lookupAt elem frameNull i) box l.x l.y with
      | .error e => .error e
      | .ok evs =>
          match handleMultiClicks elem frameNull box rest (i + 1) with
          | .error e => .error e
          | .ok more => .ok (evs ++ more)

/-- handleCaptchaAction of solve-captcha.ts: returns at once for a solved
action or any action whose state is not actionConfirmed; otherwise dispatches
on the action tag and performs the device input. -/
def handleCaptchaActionModel (elem : Nat → ElemLookup) (frameNull : Bool)
    (box : Option Box) (a : CaptchaAction) : Except JsError (List InputEvent) :=
  if isSolvedAction a then .ok []
  else if stateOf a ≠ some .actionConfirmed then .ok []
  else
    match a with
    | .click loc _ => handleClickModel (lookupAt elem frameNull 0) box loc.x loc.y
    | .typeText loc v _ =>
        match handleClickModel (lookupAt elem frameNull 0) box loc.x loc.y with
        | .error e => .error e
        | .ok evs => .ok (evs ++ [.keyType v])
    | .multiClick locs _ => handleMultiClicks elem frameNull box locs 0
    | .drag sl el _ =>
        match box with
        | none => .ok []
        | some b =>
            .ok [.moveTo (pagePt b sl.x sl.y).1 (pagePt b sl.x sl.y).2, .mouseDown,
                 .moveTo (pagePt b el.x el.y).1 (pagePt b el.x el.y).2, .mouseUp]
    | .solved => .ok []

/-- C9: for every bounding box and all percentage inputs, including values
outside [0,100], the mapper returns exactly the unclamped linear interpolation
`box + size * pct / 100`, and returns null exactly when the box is absent. -/
theorem coordinate_mapper_formula (b : Box) (xPct yPct : Rat) :
    getPageCoordinatesFromIframePercentage (some b) xPct yPct =
      some ⟨b.x + b.width * xPct / 100, b.y + b.height * yPct / 100⟩ ∧
    getPageCoordinatesFromIframePercentage none xPct yPct = none := by
  constructor
  · simp [getPageCoordinatesFromIframePercentage, mul_div_assoc]
  · rfl

/-- C1: the action executor issues no pointer or keyboard input at all for a
solved action or for any action whose state differs from actionConfirmed: it
returns normally with an empty event list. -/
theorem executor_requires_confirmed (elem : Nat → ElemLookup) (frameNull : Bool)
    (box : Option Box) (a : CaptchaAction)
    (h : stateOf a ≠ some ActionState.actionConfirmed) :
    handleCaptchaActionModel elem frameNull box a = .ok [] := by
  unfold handleCaptchaActionModel
  cases a with
  | solved => rfl
  | click l st => simp [isSolvedAction, h]
  | drag a b st => simp [isSolvedAction, h]
  | typeText l v st => simp [isSolvedAction, h]
  | multiClick ls st => simp [isSolvedAction, h]

/-- C1 witness: a creating-state click produces no input on a concrete
environment. -/
theorem executor_requires_confirmed_witness :
    handleCaptchaActionModel (fun _ => .notFound) false (some ⟨0, 0, 100, 100⟩)
      (.click ⟨"50", "50"⟩ .creatingAction) = .ok [] :=
  executor_requires_confirmed (fun _ => .notFound) false (some ⟨0, 0, 100, 100⟩)
    (.click ⟨"50", "50"⟩ .creatingAction) (by decide)

/-- A detected captcha frame, identified for same-challenge comparison by its
iframe `src` together with vendor and subtype (CaptchaDetectionResult; the
frame handle itself is re-acquired each scan and is not part of identity). -/
structure Detection where
  src : String
  vendor : String
  subtype : String
deriving DecidableEq, Repr

/-- getNewCaptchaFrames of get-active-captchas.ts: with no old frames all new
ones are new; otherwise keep exactly the new frames matching no old frame on
(src, vendor, type). -/
def getNewCaptchaFramesModel (oldCaptchas newCaptchas : List Detection) :
    List Detection :=
  if oldCaptchas.isEmpty then newCaptchas
  else
    newCaptchas.filter (fun n =>
      !(oldCaptchas.any (fun o =>
          n.src == o.src && n.vendor == o.vendor && n.subtype == o.subtype)))

/-- A JSON value, the domain of the zod response validation. -/
inductive JsonVal where
  | str (s : String)
  | num (q : Rat)
  | boolean (b : Bool)
  | null
  | arr (elems : List JsonVal)
  | obj (fields : List (String × JsonVal))

/-- First value bound to a key in a JSON object. -/
def lookupField (fields : List (String × JsonVal)) (k : String) : Option JsonVal :=
  (fields.find? (fun f => f.1 == k)).map (fun f => f.2)

/-- The strictness check of a zod `.strict()` object: every present key must
be one of the recognized keys. -/
def onlyKeys (fields : List (String × JsonVal)) (allowed : List String) : Bool :=
  fields.all (fun f => allowed.contains f.1)

/-- locationSchema: a strict object with exactly string fields x and y. -/
def validateLocation (j : JsonVal) : Except String Loc :=
  match j with
  | .obj fields =>
      if onlyKeys fields ["x", "y"] then
        match lookupField fields "x", lookupField fields "y" with
        | some (.str sx), some (.str sy) => .ok ⟨sx, sy⟩
        | _, _ => .error "location: x and y must be strings"
      else .error "location: unrecognized key"
  | _ => .error "location: expected object"

/-- The actionState enum of the schema. -/
def validateActionState (j : JsonVal) : Except String ActionState :=
  match j with
  | .str "creatingAction" => .ok .creatingAction
  | .str "adjustAction" => .ok .adjustAction
  | .str "actionConfirmed" => .ok .actionConfirmed
  | _ => .error "invalid actionState"

/-- The click branch of the discriminated union. -/
def validateClick (fields : List (String × JsonVal)) : Except String CaptchaAction :=
  if onlyKeys fields ["action", "location", "actionState"] then
    match lookupField fields "location", lookupField fields "actionState" with
    | some lj, some sj =>
        match validateLocation lj, validateActionState sj with
        | .ok loc, .ok st => .ok (.click loc st)
        | _, _ => .error "click: invalid field"
    | _, _ => .error "click: missing field"
  else .error "click: unrecognized key"

/-- The drag branch of the discriminated union. -/
def validateDrag (fields : List (String × JsonVal)) : Except String CaptchaAction :=
  if onlyKeys fields ["action", "startLocation", "endLocation", "actionState"] then
    match lookupField fields "startLocation", lookupField fields "endLocation",
        lookupField fields "actionState" with
    | some aj, some bj, some sj =>
        match validateLocation aj, validateLocation bj, validateActionState sj with
        | .ok la, .ok lb, .ok st => .ok (.drag la lb st)
        | _, _, _ => .error "drag: invalid field"
    | _, _, _ => .error "drag: missing field"
  else .error "drag: unrecognized key"

/-- The type branch of the discriminated union. -/
def validateType (fields : List (String × JsonVal)) : Except String CaptchaAction :=
  if onlyKeys fields ["action", "location", "value", "actionState"] then
    match lookupField fields "location", lookupField fields "value",
        lookupField fields "actionState" with
    | some lj, some (.str v), some sj =>
        match validateLocation lj, validateActionState sj with
        | .ok loc, .ok st => .ok (.typeText loc v st)
        | _, _ => .error "type: invalid field"
    | _, _, _ => .error "type: missing field"
  else .error "type: unrecognized key"

/-- The captcha_solved branch: a strict object with only the action key. -/
def validateSolved (fields : List (String × JsonVal)) : Except String CaptchaAction :=
  if onlyKeys fields ["action"] then .ok .solved
  else .error "captcha_solved: unrecognized key"

/-- singleCaptchaActionSchema of llm-connector.ts: a closed discriminated
union on the `action` key over the literals click, drag, type and
captcha_solved; any other discriminator is a validation error. -/
def validateSingleCaptchaAction (j : JsonVal) : Except String CaptchaAction :=
  match j with
  | .obj fields =>
      match lookupField fields "action" with
      | some (.str s) =>
          if s = "click" then validateClick fields
          else if s = "drag" then validateDrag fields
          else if s = "type" then validateType fields
          else if s = "captcha_solved" then validateSolved fields
          else .error "invalid discriminator value"
      | _ => .error "invalid discriminator value"
  | _ => .error "expected object"

/-- The loop's external world: the Vision Oracle's reply to the n-th query
(a validation error or a parsed action), the detection list returned by the
n-th re-scan, the bounding box of a detected frame, and the element-lookup
outcomes seen by the n-th executor invocation. -/
structure LoopEnv where
  oracle : Nat → Except String CaptchaAction
  scan : Nat → List Detection
  bbox : Detection → Option Box
  elem : Nat → Nat → ElemLookup

/-- The mutable state of one solveCaptchas invocation.  `activeDetection`
models the `captchaFrameData` variable (`none` models the JS `undefined`
produced by indexing an empty array); `contentFrameNull` records whether the
`contentFrame` variable is null, which solveCaptchas initializes to null and
only ever resets to null.  `executed` is an observation log of the actions
passed to handleCaptchaAction. -/
structure LoopState where
  captchaFrames : List Detection
  activeDetection : Option Detection
  contentFrameNull : Bool
  pendingAction : Option CaptchaAction
  pastActions : List CaptchaAction
  isSolved : Bool
  attempts : Nat
  oracleCalls : Nat
  scanCalls : Nat
  execCount : Nat
  executed : List CaptchaAction
deriving DecidableEq, Repr

/-- An error escaping the solve loop (solveCaptchas has no handler). -/
inductive RunErr where
  | oracleValidation (msg : String)
  | typeErrorNullFrameOverlay
  | typeErrorUndefinedDetection
  | typeErrorInExecutor
deriving DecidableEq, Repr

/-- The `maxAttempts` constant of solveCaptchas. -/
def maxAttempts : Nat := 25

/-- Lines 77-84 of solve-captcha.ts: when the adjustment reply is a
non-solved action in state actionConfirmed, the pending action becomes the
previous action with only its actionState overwritten; otherwise the reply
replaces the pending action as is. -/
def confirmAdjustStep (previousAction reply : CaptchaAction) : CaptchaAction :=
  if isSolvedAction reply = false ∧ stateOf reply = some .actionConfirmed then
    setActionState previousAction .actionConfirmed
  else reply

/-- Lines 106-117 of solve-captcha.ts: after the re-scan, the session is
restarted exactly when the number of detected frames changed; the new active
detection is element 0 of getNewCaptchaFrames (undefined when that list is
empty). -/
def rescanStep (s : LoopState) (newCaptchaFrames : List Detection) : LoopState :=
  if newCaptchaFrames.length ≠ s.captchaFrames.length then
    { s with
      activeDetection := (getNewCaptchaFramesModel s.captchaFrames newCaptchaFrames).head?,
      captchaFrames := newCaptchaFrames,
      contentFrameNull := true,
      pendingAction := none,
      pastActions := [],
      isSolved := false,
      attempts := 0 }
  else s

/-- Result of the dispatch on `pendingAction` at the top of a cycle. -/
inductive DispatchOut where
  | derr (e : RunErr) (s : LoopState)
  | dbreak (s : LoopState)
  | dcont (s : LoopState)
deriving Repr

/-- Lines 60-103 of solve-captcha.ts: no pending action means one propose
query; a solved pending action sets isSolved and breaks; a creating/adjusting
pending action means one confirm-or-adjust query folded through
confirmAdjustStep; a confirmed pending action is executed (reading the active
frame's bounding box first, a TypeError when the detection is undefined) and
archived in pastActions. -/
def dispatchStep (env : LoopEnv) (s : LoopState) : DispatchOut :=
  match s.pendingAction with
  | none =>
      match env.oracle s.oracleCalls with
      | .error e => .derr (.oracleValidation e) { s with oracleCalls := s.oracleCalls + 1 }
      | .ok a => .dcont { s with oracleCalls := s.oracleCalls + 1, pendingAction := some a }
  | some a =>
      if isSolvedAction a then .dbreak { s with isSolved := true }
      else if stateOf a = some .creatingAction ∨ stateOf a = some .adjustAction then
        match env.oracle s.oracleCalls with
        | .error e => .derr (.oracleValidation e) { s with oracleCalls := s.oracleCalls + 1 }
        | .ok reply =>
            .dcont { s with oracleCalls := s.oracleCalls + 1,
                            pendingAction := some (confirmAdjustStep a reply) }
      else if stateOf a = some .actionConfirmed then
        match s.activeDetection with
        | none => .derr .typeErrorUndefinedDetection s
        | some d =>
            match handleCaptchaActionModel (env.elem s.execCount) s.contentFrameNull
                (env.bbox d) a with
            | .error _ =>
                .derr .typeErrorInExecutor
                  { s with execCount := s.execCount + 1, executed := s.executed ++ [a] }
            | .ok _ =>
                .dcont { s with
                  pastActions := s.pastActions ++ [a],
                  pendingAction := none,
                  execCount := s.execCount + 1,
                  executed := s.executed ++ [a] }
      else .dcont s

/-- Outcome of one iteration of the while loop: an escaped error with the
state at the throw, or the post-state together with whether the iteration
ended in `break`. -/
inductive CycleResult where
  | err (e : RunErr) (s : LoopState)
  | ok (s : LoopState) (brk : Bool)
deriving Repr

/-- One iteration of the while loop (lines 55-127 of solve-captcha.ts):
increment attempts, dispatch on the pending action, re-scan and possibly
restart the session, then update overlays and the screenshot.  The overlay
update calls frame.evaluate on `contentFrame`, a TypeError whenever that
variable is null; the screenshot dereferences `captchaFrameData.frame`, a
TypeError when the detection is undefined.  A `break` skips all of that. -/
def cycleFinish (env : LoopEnv) (dout : DispatchOut) : CycleResult :=
  match dout with
  | .derr e s1 => .err e s1
  | .dbreak s1 => .ok s1 true
  | .dcont s1 =>
      let newFrames := env.scan s1.scanCalls
      let s2 := rescanStep { s1 with scanCalls := s1.scanCalls + 1 } newFrames
      if s2.contentFrameNull then .err .typeErrorNullFrameOverlay s2
      else
        match s2.activeDetection with
        | none => .err .typeErrorUndefinedDetection s2
        | some _ => .ok s2 false

/-- One iteration of the while loop, assembled from the dispatch and the
finishing steps. -/
def cycle (env : LoopEnv) (s0 : LoopState) : CycleResult :=
  cycleFinish env (dispatchStep env { s0 with attempts := s0.attempts + 1 })

/-- The loop state carried by a cycle result. -/
def cyclePostState : CycleResult → LoopState
  | .err _ s => s
  | .ok s _ => s

/-- A finished run of the while loop, an error escaping it, or fuel
exhaustion of the model (the loop itself has no such bound: the session
restart resets `attempts`). -/
inductive LoopOutcome where
  | finished (s : LoopState)
  | errored (e : RunErr) (s : LoopState)
  | outOfFuel (s : LoopState)
deriving Repr

/-- The while loop of solveCaptchas: runs cycles while `!isSolved` and
`attempts < maxAttempts`; a break ends the loop normally; an escaped error
aborts the whole call. -/
def runLoop (env : LoopEnv) : Nat → LoopState → LoopOutcome
  | 0, s => .outOfFuel s
  | fuel + 1, s =>
      if s.isSolved = false ∧ s.attempts < maxAttempts then
        match cycle env s with
        | .err e s1 => .errored e s1
        | .ok s1 true => .finished s1
        | .ok s1 false => runLoop env fuel s1
      else .finished s

/-- The state reached by a run, whatever the outcome. -/
def outcomeState : LoopOutcome → LoopState
  | .finished s => s
  | .errored _ s => s
  | .outOfFuel s => s

/-- The error of a run, when one escaped. -/
def outcomeError : LoopOutcome → Option RunErr
  | .errored e _ => some e
  | _ => none

/-- The post-state of every executed cycle, in order; a trace stops at a
break, an escaped error (whose throw-time state is included) or fuel
exhaustion. -/
def runTrace (env : LoopEnv) : Nat → LoopState → List LoopState
  | 0, _ => []
  | fuel + 1, s =>
      if s.isSolved = false ∧ s.attempts < maxAttempts then
        match cycle env s with
        | .err _ s1 => [s1]
        | .ok s1 true => [s1]
        | .ok s1 false => s1 :: runTrace env fuel s1
      else []

/-- Lines 37-53 of solveCaptchas: the initial session state over the frames
of the first successful scan.  `contentFrame` is initialized to null. -/
def initState (frames : List Detection) : LoopState :=
  { captchaFrames := frames
    activeDetection := frames.head?
    contentFrameNull := true
    pendingAction := none
    pastActions := []
    isSolved := false
    attempts := 0
    oracleCalls := 0
    scanCalls := 0
    execCount := 0
    executed := [] }

/-- solveCaptchas itself: `none` models the immediate return when no captcha
frame is found; otherwise the while loop runs from the initial state. -/
def solveCaptchasModel (env : LoopEnv) (frames : List Detection) (fuel : Nat) :
    Option LoopOutcome :=
  if frames.isEmpty then none
  else some (runLoop env fuel (initState frames))

/-- A reCAPTCHA checkbox anchor frame used as a concrete detection. -/
def dA : Detection :=
  ⟨"https://www.google.com/recaptcha/api2/anchor?k=abc", "recaptcha", "checkbox"⟩

/-- A reCAPTCHA image-grid challenge frame, a different challenge than dA
under the (src, vendor, subtype) identity rule. -/
def dB : Detection :=
  ⟨"https://www.google.com/recaptcha/api2/bframe?k=abc", "recaptcha", "image"⟩

/-- A concrete bounding box assigned to every frame of the test worlds. -/
def bbox0 : Detection → Option Box := fun _ => some ⟨10, 20, 300, 160⟩

/-- A concrete element lookup: the element under the point is never found, so
real clicks fall back to coordinate clicks. -/
def elem0 : Nat → Nat → ElemLookup := fun _ _ => .notFound

/-- A world whose Oracle reply always fails schema validation while the
detection set stays stable. -/
def envValidationFailure : LoopEnv :=
  { oracle := fun _ => .error "Failed to validate captcha actions: invalid response"
    scan := fun _ => [dA]
    bbox := bbox0
    elem := elem0 }

/-- A world where the Oracle proposes a creating click and the re-scan
returns a different frame than the active one while the count stays equal. -/
def envIdentitySwap : LoopEnv :=
  { oracle := fun _ => .ok (.click ⟨"50", "50"⟩ .creatingAction)
    scan := fun _ => [dB]
    bbox := bbox0
    elem := elem0 }

/-- A world where the active challenge iframe detaches: every re-scan returns
the empty detection list. -/
def envFrameLost : LoopEnv :=
  { oracle := fun _ => .ok (.click ⟨"50", "50"⟩ .creatingAction)
    scan := fun _ => []
    bbox := bbox0
    elem := elem0 }

/-- A world whose Oracle always returns a creating-state click and whose
detection set stays stable. -/
def envAlwaysCreating : LoopEnv :=
  { oracle := fun _ => .ok (.click ⟨"10", "10"⟩ .creatingAction)
    scan := fun _ => [dA]
    bbox := bbox0
    elem := elem0 }

/-- The end-to-end scenario world: Oracle replies Click(50,50,Creating),
Click(52,48,Adjust), Click(52,48,Confirmed), then Solved, with one stable
detected frame. -/
def envScenario : LoopEnv :=
  { oracle := fun n =>
      if n = 0 then .ok (.click ⟨"50", "50"⟩ .creatingAction)
      else if n = 1 then .ok (.click ⟨"52", "48"⟩ .adjustAction)
      else if n = 2 then .ok (.click ⟨"52", "48"⟩ .actionConfirmed)
      else .ok .solved
    scan := fun _ => [dA]
    bbox := bbox0
    elem := elem0 }

/-- C2 counterexample: a schema-validation failure of the Oracle response is
not absorbed by the loop; it escapes solveCaptchas as an error in the very
cycle it occurs, so the claim that the loop retries and the error is not
propagated is false. -/
theorem oracle_validation_error_escapes_cex :
    outcomeError (runLoop envValidationFailure 5 (initState [dA])) =
      some (.oracleValidation "Failed to validate captcha actions: invalid response") ∧
    (outcomeState (runLoop envValidationFailure 5 (initState [dA]))).attempts = 1 := by
  decide

/-- C2 amended: whenever a cycle performs an Oracle query (no pending action,
or a pending action in creating/adjust state) and the response fails schema
validation, the wrapped error propagates out of the while loop: the run ends
as errored, with no retry. -/
theorem oracle_validation_error_escapes (env : LoopEnv) (s : LoopState)
    (e : String) (fuel : Nat)
    (hs : s.isSolved = false) (ha : s.attempts < maxAttempts)
    (hp : s.pendingAction = none ∨ ∃ a, s.pendingAction = some a ∧
        (stateOf a = some ActionState.creatingAction ∨
         stateOf a = some ActionState.adjustAction))
    (ho : env.oracle s.oracleCalls = .error e) :
    ∃ s1, runLoop env (fuel + 1) s = .errored (.oracleValidation e) s1 := by
  refine ⟨{ s with attempts := s.attempts + 1, oracleCalls := s.oracleCalls + 1 }, ?_⟩
  rw [runLoop, if_pos ⟨hs, ha⟩]
  rcases hp with hnone | ⟨a, hpa, hst⟩
  · simp [cycle, cycleFinish, dispatchStep, hnone, ho]
  · have hns : isSolvedAction a = false := by
      cases a <;> first | rfl | simp [stateOf] at hst
    simp [cycle, cycleFinish, dispatchStep, hpa, hns, hst, ho]

/-- C2 witness: the amended statement at the concrete failing world. -/
theorem oracle_validation_error_escapes_witness :
    ∃ s1, runLoop envValidationFailure (4 + 1) (initState [dA]) =
      .errored (.oracleValidation "Failed to validate captcha actions: invalid response") s1 :=
  oracle_validation_error_escapes envValidationFailure (initState [dA]) _ 4
    rfl (by decide) (Or.inl rfl) rfl

/-- C3 counterexample: a re-scan that returns a different frame (dB) than the
active one (dA) under the (src, vendor, subtype) identity rule — dB is new by
getNewCaptchaFramesModel — but with an unchanged frame count, does not make
the loop switch the active detection, reset the attempt counter, or discard
the pending action. -/
theorem identity_swap_no_reset_cex :
    getNewCaptchaFramesModel [dA] [dB] = [dB] ∧
    (cyclePostState (cycle envIdentitySwap (initState [dA]))).activeDetection = some dA ∧
    (cyclePostState (cycle envIdentitySwap (initState [dA]))).attempts = 1 ∧
    (cyclePostState (cycle envIdentitySwap (initState [dA]))).pendingAction ≠ none := by
  decide

/-- C3 amended: in a cycle that performs a successful propose query, the
session restart happens exactly when the re-scanned frame count differs from
the previous count: then the active detection becomes element 0 of
getNewCaptchaFrames (none when that list is empty), the pending action is
discarded, pastActions is cleared and attempts is reset to 0; with an equal
count — even if frame identities changed — all session state is kept. -/
theorem session_reset_iff_frame_count_changes (env : LoopEnv) (s : LoopState)
    (a : CaptchaAction)
    (hp : s.pendingAction = none) (ho : env.oracle s.oracleCalls = .ok a) :
    ((env.scan s.scanCalls).length ≠ s.captchaFrames.length →
      (cyclePostState (cycle env s)).activeDetection =
          (getNewCaptchaFramesModel s.captchaFrames (env.scan s.scanCalls)).head? ∧
      (cyclePostState (cycle env s)).captchaFrames = env.scan s.scanCalls ∧
      (cyclePostState (cycle env s)).pendingAction = none ∧
      (cyclePostState (cycle env s)).pastActions = [] ∧
      (cyclePostState (cycle env s)).attempts = 0) ∧
    ((env.scan s.scanCalls).length = s.captchaFrames.length →
      (cyclePostState (cycle env s)).activeDetection = s.activeDetection ∧
      (cyclePostState (cycle env s)).captchaFrames = s.captchaFrames ∧
      (cyclePostState (cycle env s)).pendingAction = some a ∧
      (cyclePostState (cycle env s)).pastActions = s.pastActions ∧
      (cyclePostState (cycle env s)).attempts = s.attempts + 1) := by
  constructor
  · intro hd
    simp [cycle, cycleFinish, dispatchStep, hp, ho, rescanStep, hd, cyclePostState]
  · intro hd
    cases hcf : s.contentFrameNull with
    | true => simp [cycle, cycleFinish, dispatchStep, hp, ho, rescanStep, hd, hcf, cyclePostState]
    | false =>
        cases had : s.activeDetection with
        | none =>
            simp [cycle, cycleFinish, dispatchStep, hp, ho, rescanStep, hd, hcf, had, cyclePostState]
        | some d =>
            simp [cycle, cycleFinish, dispatchStep, hp, ho, rescanStep, hd, hcf, had, cyclePostState]

/-- C3 witness: the reset conjunct of the amended statement, instantiated at
a concrete world whose re-scan count differs. -/
theorem session_reset_iff_frame_count_changes_witness :
    (cyclePostState (cycle envFrameLost (initState [dA]))).activeDetection =
        (getNewCaptchaFramesModel (initState [dA]).captchaFrames
          (envFrameLost.scan (initState [dA]).scanCalls)).head? ∧
    (cyclePostState (cycle envFrameLost (initState [dA]))).captchaFrames =
        envFrameLost.scan (initState [dA]).scanCalls ∧
    (cyclePostState (cycle envFrameLost (initState [dA]))).pendingAction = none ∧
    (cyclePostState (cycle envFrameLost (initState [dA]))).pastActions = [] ∧
    (cyclePostState (cycle envFrameLost (initState [dA]))).attempts = 0 :=
  (session_reset_iff_frame_count_changes envFrameLost (initState [dA])
    (.click ⟨"50", "50"⟩ .creatingAction) rfl rfl).1 (by decide)

/-- C4: when the active challenge iframe detaches so the re-scan shrinks from
[dA] to [], the restart branch runs but getNewCaptchaFrames is empty, so
`captchaFrameData` becomes undefined (activeDetection = none) and a fatal
TypeError escapes the loop instead of a graceful reset-and-re-scan. -/
theorem frame_lost_raises_fatal_error :
    outcomeError (runLoop envFrameLost 5 (initState [dA])) =
      some .typeErrorNullFrameOverlay ∧
    (outcomeState (runLoop envFrameLost 5 (initState [dA]))).activeDetection = none ∧
    (outcomeState (runLoop envFrameLost 5 (initState [dA]))).captchaFrames = [] ∧
    (outcomeState (runLoop envFrameLost 5 (initState [dA]))).attempts = 0 := by
  decide

/-- C5: fed an Oracle that always answers with a creating-state click and a
stable detection set, the loop does not run maxAttempts cycles and does not
return normally: a TypeError escapes at the overlay update of the very first
cycle, because `contentFrame` is initialized to null and never assigned. -/
theorem always_creating_run_crashes_first_cycle :
    outcomeError (runLoop envAlwaysCreating 30 (initState [dA])) =
      some .typeErrorNullFrameOverlay ∧
    (outcomeState (runLoop envAlwaysCreating 30 (initState [dA]))).attempts = 1 ∧
    (outcomeState (runLoop envAlwaysCreating 30 (initState [dA]))).isSolved = false := by
  decide

/-- C6: on the scenario Oracle [Click(50,50,Creating), Click(52,48,Adjust),
Click(52,48,Confirmed), Solved] with one stable frame, the actual loop throws
a TypeError at the end of the first cycle with zero executor invocations and
isSolved still false; in the variant state where `contentFrame` is not null,
the same scenario finishes with exactly one executor invocation, carrying
location (52,48), and isSolved = true — after 6 cycles, not 4. -/
theorem endtoend_scenario_diverges :
    (outcomeError (runLoop envScenario 10 (initState [dA])) =
        some .typeErrorNullFrameOverlay ∧
      (outcomeState (runLoop envScenario 10 (initState [dA]))).executed = [] ∧
      (outcomeState (runLoop envScenario 10 (initState [dA]))).isSolved = false ∧
      (outcomeState (runLoop envScenario 10 (initState [dA]))).attempts = 1) ∧
    (outcomeError (runLoop envScenario 10
        { initState [dA] with contentFrameNull := false }) = none ∧
      (outcomeState (runLoop envScenario 10
        { initState [dA] with contentFrameNull := false })).executed =
          [.click ⟨"52", "48"⟩ .actionConfirmed] ∧
      (outcomeState (runLoop envScenario 10
        { initState [dA] with contentFrameNull := false })).isSolved = true ∧
      (outcomeState (runLoop envScenario 10
        { initState [dA] with contentFrameNull := false })).attempts = 6) := by
  decide

/-- C7: when the confirm-or-adjust reply is a non-solved action in state
actionConfirmed, the resulting pending action keeps every field of the
pre-confirmation pending action except actionState — the reply's own
coordinates, type and value are discarded. -/
theorem confirm_keeps_previous_fields (prev reply : CaptchaAction)
    (hprev : stateOf prev = some ActionState.creatingAction ∨
             stateOf prev = some ActionState.adjustAction)
    (hr1 : isSolvedAction reply = false)
    (hr2 : stateOf reply = some ActionState.actionConfirmed) :
    payload (confirmAdjustStep prev reply) = payload prev ∧
    stateOf (confirmAdjustStep prev reply) = some ActionState.actionConfirmed := by
  unfold confirmAdjustStep
  rw [if_pos ⟨hr1, hr2⟩]
  constructor
  · cases prev <;> rfl
  · cases prev <;> first | rfl | simp [stateOf] at hprev

/-- C7 witness: confirming a pending click at (50,50) with a reply that
carries different coordinates (99,99) keeps the (50,50) payload. -/
theorem confirm_keeps_previous_fields_witness :
    payload (confirmAdjustStep (.click ⟨"50", "50"⟩ .adjustAction)
        (.click ⟨"99", "99"⟩ .actionConfirmed)) =
      payload (.click ⟨"50", "50"⟩ .adjustAction) ∧
    stateOf (confirmAdjustStep (.click ⟨"50", "50"⟩ .adjustAction)
        (.click ⟨"99", "99"⟩ .actionConfirmed)) =
      some ActionState.actionConfirmed :=
  confirm_keeps_previous_fields (.click ⟨"50", "50"⟩ .adjustAction)
    (.click ⟨"99", "99"⟩ .actionConfirmed) (Or.inr rfl) rfl rfl

/-- A multiClick response exactly as the spec describes it: an ordered
locations array of index/x/y records with unique indices. -/
def multiClickJson : JsonVal :=
  .obj [("action", .str "multiClick"),
        ("locations", .arr
          [.obj [("index", .num 0), ("x", .str "25"), ("y", .str "25")],
           .obj [("index", .num 1), ("x", .str "75"), ("y", .str "25")]]),
        ("actionState", .str "creatingAction")]

/-- A well-formed click response. -/
def clickJson : JsonVal :=
  .obj [("action", .str "click"),
        ("location", .obj [("x", .str "50"), ("y", .str "50")]),
        ("actionState", .str "creatingAction")]

/-- A well-formed drag response. -/
def dragJson : JsonVal :=
  .obj [("action", .str "drag"),
        ("startLocation", .obj [("x", .str "10"), ("y", .str "20")]),
        ("endLocation", .obj [("x", .str "80"), ("y", .str "20")]),
        ("actionState", .str "creatingAction")]

/-- A well-formed type response. -/
def typeJson : JsonVal :=
  .obj [("action", .str "type"),
        ("location", .obj [("x", .str "50"), ("y", .str "80")]),
        ("value", .str "hello"),
        ("actionState", .str "creatingAction")]

/-- A well-formed captcha_solved response. -/
def solvedJson : JsonVal :=
  .obj [("action", .str "captcha_solved")]

/-- C8 counterexample: the schema of llm-connector.ts rejects a well-formed
MultiClick response (unique indices included) with a validation error, so the
accepted set does not contain the MultiClick variant. -/
theorem schema_rejects_multiClick_cex :
    validateSingleCaptchaAction multiClickJson =
      .error "invalid discriminator value" := by
  rfl

/-- C8 amended: the schema accepts exactly the closed set Click, Drag, Type
and Solved — any response whose action value lies outside these four
literals is rejected with a validation error, never silently ignored — and
each of the four variants has accepted instances. -/
theorem schema_closed_union_without_multiClick :
    (∀ (fields : List (String × JsonVal)) (s : String),
      lookupField fields "action" = some (.str s) →
      s ≠ "click" → s ≠ "drag" → s ≠ "type" → s ≠ "captcha_solved" →
      validateSingleCaptchaAction (.obj fields) =
        .error "invalid discriminator value") ∧
    validateSingleCaptchaAction clickJson = .ok (.click ⟨"50", "50"⟩ .creatingAction) ∧
    validateSingleCaptchaAction dragJson =
      .ok (.drag ⟨"10", "20"⟩ ⟨"80", "20"⟩ .creatingAction) ∧
    validateSingleCaptchaAction typeJson =
      .ok (.typeText ⟨"50", "80"⟩ "hello" .creatingAction) ∧
    validateSingleCaptchaAction solvedJson = .ok .solved := by
  refine ⟨?_, rfl, rfl, rfl, rfl⟩
  intro fields s hl h1 h2 h3 h4
  simp [validateSingleCaptchaAction, hl, h1, h2, h3, h4]

/-- C8 witness: the rejection branch of the amended statement at a concrete
unknown discriminator. -/
theorem schema_closed_union_without_multiClick_witness :
    validateSingleCaptchaAction (.obj [("action", .str "unknownAction")]) =
      .error "invalid discriminator value" :=
  schema_closed_union_without_multiClick.1 [("action", .str "unknownAction")]
    "unknownAction" rfl (by decide) (by decide) (by decide) (by decide)

/-- The C10 invariant: every archived action is a non-solved action in state
actionConfirmed. -/
def PastActionsInv (s : LoopState) : Prop :=
  ∀ a ∈ s.pastActions, isSolvedAction a = false ∧
    stateOf a = some ActionState.actionConfirmed

/-- The state carried by a dispatch result. -/
def dispatchOutState : DispatchOut → LoopState
  | .derr _ s => s
  | .dbreak s => s
  | .dcont s => s

/-- The dispatch on the pending action only ever appends to pastActions in
the confirmed branch, and the appended action is the non-solved confirmed
pending action itself. -/
theorem pastActionsInv_dispatchStep (env : LoopEnv) (s : LoopState)
    (h : PastActionsInv s) :
    PastActionsInv (dispatchOutState (dispatchStep env s)) := by
  unfold dispatchStep
  cases hsp : s.pendingAction with
  | none =>
      cases horc : env.oracle s.oracleCalls with
      | error e => simpa [dispatchOutState, PastActionsInv] using h
      | ok a => simpa [dispatchOutState, PastActionsInv] using h
  | some a =>
      cases h1 : isSolvedAction a with
      | true => simpa [dispatchOutState, PastActionsInv, h1] using h
      | false =>
          simp only [h1, Bool.false_eq_true, if_false]
          by_cases h2 : stateOf a = some ActionState.creatingAction ∨
              stateOf a = some ActionState.adjustAction
          · rw [if_pos h2]
            cases horc : env.oracle s.oracleCalls with
            | error e => simpa [dispatchOutState, PastActionsInv] using h
            | ok r => simpa [dispatchOutState, PastActionsInv] using h
          · rw [if_neg h2]
            by_cases h3 : stateOf a = some ActionState.actionConfirmed
            · rw [if_pos h3]
              cases had : s.activeDetection with
              | none => simpa [dispatchOutState, PastActionsInv] using h
              | some d =>
                  cases hex : handleCaptchaActionModel (env.elem s.execCount)
                      s.contentFrameNull (env.bbox d) a with
                  | error e => simpa [dispatchOutState, PastActionsInv, hex] using h
                  | ok evs =>
                      simp only [hex, dispatchOutState, PastActionsInv]
                      intro b hb
                      rcases List.mem_append.1 hb with hb1 | hb2
                      · exact h b hb1
                      · rcases List.mem_singleton.1 hb2 with rfl
                        exact ⟨h1, h3⟩
            · rw [if_neg h3]
              simpa [dispatchOutState, PastActionsInv] using h

/-- The re-scan restart either clears pastActions or leaves it unchanged. -/
theorem pastActionsInv_rescanStep (s : LoopState) (newFrames : List Detection)
    (h : PastActionsInv s) : PastActionsInv (rescanStep s newFrames) := by
  unfold rescanStep
  split
  · intro b hb
    simp at hb
  · exact h

/-- The finishing steps of a cycle preserve the C10 invariant. -/
theorem pastActionsInv_cycleFinish (env : LoopEnv) (dout : DispatchOut)
    (h : PastActionsInv (dispatchOutState dout)) :
    PastActionsInv (cyclePostState (cycleFinish env dout)) := by
  cases dout with
  | derr e s1 => simpa [cycleFinish, cyclePostState, dispatchOutState] using h
  | dbreak s1 => simpa [cycleFinish, cyclePostState, dispatchOutState] using h
  | dcont s1 =>
      have h2 : PastActionsInv (rescanStep { s1 with scanCalls := s1.scanCalls + 1 }
          (env.scan s1.scanCalls)) :=
        pastActionsInv_rescanStep _ _ (by simpa [dispatchOutState] using h)
      simp only [cycleFinish]
      split
      · simpa [cyclePostState] using h2
      · split <;> simpa [cyclePostState] using h2

/-- One full cycle preserves the C10 invariant, whether it ends normally, in
a break, or in an escaped error. -/
theorem pastActionsInv_cycle (env : LoopEnv) (s : LoopState)
    (h : PastActionsInv s) :
    PastActionsInv (cyclePostState (cycle env s)) := by
  have hbump : PastActionsInv { s with attempts := s.attempts + 1 } := h
  exact pastActionsInv_cycleFinish env _
    (pastActionsInv_dispatchStep env { s with attempts := s.attempts + 1 } hbump)

/-- Helper induction for C10: the invariant holds at every state of a trace
started from an invariant state. -/
theorem pastActionsInv_trace_aux (env : LoopEnv) (fuel : Nat) :
    ∀ s : LoopState, PastActionsInv s →
      ∀ s1 ∈ runTrace env fuel s, PastActionsInv s1 := by
  induction fuel with
  | zero =>
      intro s h s1 h1
      simp [runTrace] at h1
  | succ n ih =>
      intro s h s1 h1
      rw [runTrace] at h1
      by_cases hc : s.isSolved = false ∧ s.attempts < maxAttempts
      · rw [if_pos hc] at h1
        have hcy := pastActionsInv_cycle env s h
        cases hcyc : cycle env s with
        | err e s2 =>
            rw [hcyc] at h1 hcy
            rcases List.mem_singleton.1 h1 with rfl
            simpa [cyclePostState] using hcy
        | ok s2 brk =>
            rw [hcyc] at h1 hcy
            cases brk with
            | true =>
                rcases List.mem_singleton.1 h1 with rfl
                simpa [cyclePostState] using hcy
            | false =>
                rcases List.mem_cons.1 h1 with rfl | h1
                · simpa [cyclePostState] using hcy
                · exact ih s2 (by simpa [cyclePostState] using hcy) s1 h1
      · rw [if_neg hc] at h1
        simp at h1

/-- C10: at every point during a run of the while loop started from a state
whose pastActions already satisfy the invariant (in particular the initial
state, where it is empty), every action stored in pastActions is a
non-solved action whose actionState is actionConfirmed: actions are appended
only in the confirmed-execution branch and the only other modification is
the session restart, which clears the list. -/
theorem pastActions_all_confirmed (env : LoopEnv) (fuel : Nat) (s : LoopState)
    (h : PastActionsInv s) :
    ∀ s1 ∈ runTrace env fuel s, PastActionsInv s1 :=
  pastActionsInv_trace_aux env fuel s h

/-- The state reached after the fifth cycle of the scenario world started
with a non-null content frame: it has archived exactly the executed confirmed
click. -/
def scenarioMidState : LoopState :=
  { captchaFrames := [dA]
    activeDetection := some dA
    contentFrameNull := false
    pendingAction := some .solved
    pastActions := [.click ⟨"52", "48"⟩ .actionConfirmed]
    isSolved := false
    attempts := 5
    oracleCalls := 4
    scanCalls := 5
    execCount := 1
    executed := [.click ⟨"52", "48"⟩ .actionConfirmed] }

/-- C10 witness: the invariant at a concrete mid-run state, with a non-empty
pastActions, obtained by applying the trace theorem to the scenario world. -/
theorem pastActions_all_confirmed_witness : PastActionsInv scenarioMidState :=
  pastActions_all_confirmed envScenario 8
    { initState [dA] with contentFrameNull := false }
    (fun a ha => absurd ha (List.not_mem_nil a))
    scenarioMidState (by decide)
